import Mathlib

/-!
Verification of `src/src/type_I_migration.c` (Type I planet-disc migration force,
a reboundx fork).  The source is work-in-progress C that does not compile as-is;
the embedding reads it literally where possible and documents, at each definition,
how its (syntactic) slips are resolved:

* the `**` operator is read as exponentiation: real-exponent powers (`beta`,
  `-alpha`, `1.2`) become `Real.rpow`, integer-literal exponents become
  monoid powers;
* doubles are modelled as real numbers; `INFINITY`-valued local timescales are
  modelled as `Option` (with `none` for `INFINITY`), and the IEEE rule
  `finite / INFINITY = 0` is made explicit where the code relies on it;
* dereferencing a parameter pointer that may be `NULL` is modelled by `deref`,
  which produces an explicit `nullDeref` fault when the parameter is absent
  (in C this is undefined behaviour, a crash in practice).
-/

namespace TypeIMigration

noncomputable section

/-- Source lines 78-94, `rebx_calculate_planet_trap`: the planet-trap factor,
piecewise in the distance from the inner disc edge `dedge` with fractional
half-width `h`.  The first branch is taken when `r > dedge*(1.0 + h)`, the second
when `dedge*(1.0 - h) < r`, otherwise the third. -/
def rebx_calculate_planet_trap (r h dedge : ℝ) : ℝ :=
  if dedge * (1 + h) < r then 1
  else if dedge * (1 - h) < r then
    5.5 * Real.cos ((dedge * (1 + h) - r) * (2 * Real.pi) / (4 * h * dedge)) - 4.5
  else -10

/-- Source lines 100-104, the aspect-ratio power law `Hr = 0.02*(3**(-beta))*(r**beta)`
(the C `= 0` default-argument slip on `beta` does not affect the formula; `beta` is
a real exponent, so `**` is `Real.rpow`). -/
def rebx_calculating_the_aspect_ratio (r beta : ℝ) : ℝ :=
  0.02 * (3 : ℝ) ^ (-beta) * r ^ beta

/-- Source lines 122-129, `rebx_calculating_damping_timescale` (the wave timescale
`t_wave`).  The source reads `G` ambiently via `sim->G` although no `sim` is in
scope (a slip); it is threaded here as an explicit first argument.
`sd = sd0 * r**(-alpha)` and
`t_wave = ((ms**2)/(mp*sd*sma**2)) * (ar**4) * (1/sqrt((G*ms)/sma))`. -/
def rebx_calculating_damping_timescale (G mp ms sma r sd0 alpha ar : ℝ) : ℝ :=
  let sd := sd0 * r ^ (-alpha)
  ((ms ^ 2) / (mp * sd * sma ^ 2)) * (ar ^ 4) * (1 / Real.sqrt ((G * ms) / sma))

/-- Source lines 132-136, `rebx_calculating_eccentricity_damping_timescale`:
`t_e = (t_wave/0.780) * (1.0 - 0.14*((ecc/ar)**2) + 0.06*((ecc/ar)**3))`. -/
def rebx_calculating_eccentricity_damping_timescale
    (G mp ms sma r sd0 alpha ar ecc : ℝ) : ℝ :=
  (rebx_calculating_damping_timescale G mp ms sma r sd0 alpha ar / 0.780) *
    (1.0 - 0.14 * ((ecc / ar) ^ 2) + 0.06 * ((ecc / ar) ^ 3))

/-- The denominator of the local `Pe` of source line 148: `1 - (ecc/(2.02*ar))**4`.
Extracted as a named definition so the singularity claims can speak about it. -/
def rebx_Pe_den (ecc ar : ℝ) : ℝ := 1 - (ecc / (2.02 * ar)) ^ 4

/-- The local `Pe` of source line 148 (inside
`reb_calculating_semi_major_axis_damping_timescale`), extracted as a named
definition: `Pe = (1 + (ecc/(2.25*ar))**(1.2) + (ecc/(2.84*ar))**6) / (1 - (ecc/(2.02*ar))**4)`.
The `1.2` exponent is a real exponent (`Real.rpow`); the source computes the
division unconditionally, with no domain check of any kind. -/
def rebx_Pe (ecc ar : ℝ) : ℝ :=
  (1 + (ecc / (2.25 * ar)) ^ (1.2 : ℝ) + (ecc / (2.84 * ar)) ^ 6) / rebx_Pe_den ecc ar

/-- Source lines 145-151, `reb_calculating_semi_major_axis_damping_timescale`:
`t_a = ((2*t_wave)/(2.7 + 1.1*alpha)) * (ar**2) * Pe`.  Source line 149 passes an
extra trailing `ecc` argument to the seven-parameter wave-timescale function (a
slip, C would reject it); the extra argument is dropped here. -/
def reb_calculating_semi_major_axis_damping_timescale
    (G mp ms sma r sd0 alpha ar ecc : ℝ) : ℝ :=
  ((2 * rebx_calculating_damping_timescale G mp ms sma r sd0 alpha ar) /
      (2.7 + 1.1 * alpha)) * (ar ^ 2) * rebx_Pe ecc ar

/-- The wave-timescale formula exactly as the spec states it (spec section 4.2),
for comparison with the source's `rebx_calculating_damping_timescale`:
`t_wave = (mStar/mPlanet) * (mStar/(sigma(r)*a^2)) * Hr^4 * sqrt(a^3/(G*mStar))`. -/
def waveTimescale_spec (G mp ms a r sd0 alpha Hr : ℝ) : ℝ :=
  (ms / mp) * (ms / ((sd0 * r ^ (-alpha)) * a ^ 2)) * (Hr ^ 4) *
    Real.sqrt (a ^ 3 / (G * ms))

/-- A 3D vector, source `struct reb_vec3d`. -/
structure Vec3 where
  x : ℝ
  y : ℝ
  z : ℝ

/-- Source `struct reb_particle`, restricted to the fields the evaluator reads:
mass, position and velocity. -/
structure Particle where
  m : ℝ
  x : ℝ
  y : ℝ
  z : ℝ
  vx : ℝ
  vy : ℝ
  vz : ℝ

/-- The per-particle override parameters looked up on `p->ap` (source lines
159-161).  `none` models a `NULL` return of `rebx_get_param` (parameter absent). -/
structure ParticleParams where
  tau_a : Option ℝ
  tau_e : Option ℝ
  tau_inc : Option ℝ

/-- The per-force disc parameters looked up on `force->ap` (source lines 162-166;
line 166 writes `force-Zap`, read as `force->ap`).  `none` models a `NULL`
return (parameter absent). -/
structure ForceConfig where
  inner_disc_edge : Option ℝ
  disc_edge_width : Option ℝ
  beta : Option ℝ
  alpha : Option ℝ
  initial_disc_surface_density : Option ℝ

/-- The orbital elements the evaluator reads from the external orbit utility
(source lines 171-175): semimajor axis, eccentricity, inclination. -/
structure Orbit where
  a : ℝ
  e : ℝ
  inc : ℝ

/-- Faults an evaluation can hit.  `nullDeref` models dereferencing a `NULL`
parameter pointer (undefined behaviour in the C source — a crash in practice).
`configurationError` is the error class the spec prescribes for missing disc
parameters; the constructor exists so that claims about it can be stated, and
the embedded code never produces it. -/
inductive EvalError where
  | nullDeref
  | configurationError

/-- Dereference of a possibly-`NULL` parameter pointer: absent parameters fault. -/
def deref (p : Option ℝ) : Except EvalError ℝ :=
  match p with
  | some v => Except.ok v
  | none => Except.error EvalError.nullDeref

/-- Source lines 154 and 186-188: resolution of `invtau_a`.  Initialised to `0.0`;
if the `tau_a` parameter pointer is non-`NULL` the source overwrites it with
`rebx_calculate_planet_trap(a0, *h, *dedge) / reb_calculating_semi_major_axis_damping_timescale(mp, ms, a0, sqrt(r2), *sd0, *alpha, rebx_calculating_the_aspect_ratio(sqrt(r2), *beta), e0)`
(note: the value `*tau_a_ptr` itself is never used).  The five disc-parameter
dereferences fault when the parameter is absent; C leaves their evaluation order
unspecified, and the fault carries no payload, so the order is immaterial.
The source's undeclared identifier `ms` is read as the source body's mass. -/
def resolve_invtau_a (G : ℝ) (pp : ParticleParams) (fc : ForceConfig)
    (mp ms a0 e0 r2 : ℝ) : Except EvalError ℝ :=
  match pp.tau_a with
  | none => Except.ok 0
  | some _ =>
    match fc.disc_edge_width, fc.inner_disc_edge, fc.initial_disc_surface_density,
        fc.alpha, fc.beta with
    | some h, some dedge, some sd0, some alpha, some beta =>
      Except.ok (rebx_calculate_planet_trap a0 h dedge /
        reb_calculating_semi_major_axis_damping_timescale G mp ms a0 (Real.sqrt r2)
          sd0 alpha ( rebx_calculating_the_aspect_ratio (Real.sqrt r2) beta) e0)
    | _, _, _, _, _ => Except.error EvalError.nullDeref

/-- Source lines 155 and 189-191: resolution of the local `tau_e`.  Initialised to
`INFINITY` (modelled `none`); the guard tests the undeclared identifier `t_e`
against `NULL` (a slip, read as the `tau_e` parameter pointer of line 160), and
when it is non-`NULL` the source overwrites `tau_e` with the disc-derived
`rebx_calculating_eccentricity_damping_timescale(mp, ms, a0, sqrt(r2), *sd0, *alpha, rebx_calculating_the_aspect_ratio(sqrt(r2), *beta), e0)`
(note: the value `*tau_e_ptr` itself is never used). -/
def resolve_tau_e (G : ℝ) (pp : ParticleParams) (fc : ForceConfig)
    (mp ms a0 e0 r2 : ℝ) : Except EvalError (Option ℝ) :=
  match pp.tau_e with
  | none => Except.ok none
  | some _ =>
    match fc.initial_disc_surface_density, fc.alpha, fc.beta with
    | some sd0, some alpha, some beta =>
      Except.ok (some (rebx_calculating_eccentricity_damping_timescale G mp ms a0
        (Real.sqrt r2) sd0 alpha ( rebx_calculating_the_aspect_ratio (Real.sqrt r2) beta) e0))
    | _, _, _ => Except.error EvalError.nullDeref

/-- Division of a finite double by a local timescale that may be `INFINITY`
(modelled `none`): IEEE gives `finite / INFINITY = 0`. -/
def divByTau (x : ℝ) (tau : Option ℝ) : ℝ :=
  match tau with
  | none => 0
  | some t => x / t

/-- Source lines 206-212: the eccentricity/inclination acceleration term, guarded
by `tau_e < INFINITY || tau_inc < INFINITY`.  Inside the guard,
`vdotr = dx*dvx + dy*dvy + dz*dvz`, `prefac = 2*vdotr/r2/tau_e`, and the term is
`(prefac*dx, prefac*dy, prefac*dz + 2.*dvz/tau_inc)`; outside the guard nothing
is added. -/
def eccIncTerm (tau_e tau_inc : Option ℝ) (dx dy dz dvx dvy dvz r2 : ℝ) : Vec3 :=
  if tau_e.isSome || tau_inc.isSome then
    let vdotr := dx * dvx + dy * dvy + dz * dvz
    let prefac := divByTau (2 * vdotr / r2) tau_e
    ⟨prefac * dx, prefac * dy, prefac * dz + divByTau (2 * dvz) tau_inc⟩
  else ⟨0, 0, 0⟩

/-- Source lines 153-214, `rebx_calculate_modify_orbits_with_type_I_migration`:
the per-particle force evaluator.  Reads the per-particle overrides and the disc
configuration, the orbit `o` from the external utility (source line 171; the
undeclared `primary` is read as `source`), forms the relative state
`(dx,dy,dz,dvx,dvy,dvz)` and `r2`, resolves `invtau_a` and `tau_e`/`tau_inc`,
and assembles the acceleration.  The source writes its accumulator under four
names (`am` declared line 196 and unused, `aa` assigned lines 198-200, `a`
incremented lines 209-211 and returned line 213); it is modelled as the single
accumulator the data flow describes.  Source lines 202-204 compute a vector `ae`
that references an undeclared `r` and is never added to the result (dead code);
it has no counterpart here. -/
def rebx_calculate_modify_orbits_with_type_I_migration
    (G : ℝ) (pp : ParticleParams) (fc : ForceConfig) (p source : Particle)
    (o : Orbit) : Except EvalError Vec3 :=
  let a0 := o.a
  let e0 := o.e
  let mp := p.m
  let ms := source.m
  let dvx := p.vx - source.vx
  let dvy := p.vy - source.vy
  let dvz := p.vz - source.vz
  let dx := p.x - source.x
  let dy := p.y - source.y
  let dz := p.z - source.z
  let r2 := dx * dx + dy * dy + dz * dz
  match resolve_invtau_a G pp fc mp ms a0 e0 r2,
      resolve_tau_e G pp fc mp ms a0 e0 r2 with
  | Except.ok invtau_a, Except.ok tau_e =>
    let tau_inc := pp.tau_inc
    let t := eccIncTerm tau_e tau_inc dx dy dz dvx dvy dvz r2
    Except.ok ⟨-dvx * invtau_a + t.x, -dvy * invtau_a + t.y, -dvz * invtau_a + t.z⟩
  | Except.error e, _ => Except.error e
  | _, Except.error e => Except.error e

/-- The shared state visible to one evaluator call: the simulation-wide
gravitational constant, the parameter store contents for the particle and the
force, the particle and reference-body snapshots, and the orbit computed from
them by the external utility. -/
structure World where
  G : ℝ
  pp : ParticleParams
  fc : ForceConfig
  p : Particle
  source : Particle
  o : Orbit

/-- The evaluator run against the shared state, returning its result together
with the state after the call.  Every statement of source lines 153-213 either
declares a function-local (`const`) variable or reads `sim`, `p`, `source` or the
parameter store; no statement assigns through `p`, `source` or `sim`, so the
state after the call is the state before it. -/
def evalInWorld (w : World) : Except EvalError Vec3 × World :=
  (rebx_calculate_modify_orbits_with_type_I_migration w.G w.pp w.fc w.p w.source w.o, w)

end

/-! ### Helper evaluations at concrete inputs, shared by several theorems -/

/-- The aspect ratio evaluated at radius 1 with exponent 0. -/
lemma aspect_ratio_eval_one : rebx_calculating_the_aspect_ratio 1 0 = 0.02 := by
  unfold rebx_calculating_the_aspect_ratio
  rw [neg_zero, Real.rpow_zero, Real.rpow_zero]
  norm_num

/-- The wave timescale at `G = mp = ms = sma = r = sd0 = 1`, `alpha = 0`, `ar = 0.02`. -/
lemma damping_timescale_eval_one :
    rebx_calculating_damping_timescale 1 1 1 1 1 1 0 0.02 = 1 / 6250000 := by
  unfold rebx_calculating_damping_timescale
  rw [neg_zero, Real.rpow_zero]
  norm_num [Real.sqrt_one]

/-- The Pe factor at zero eccentricity and aspect ratio 0.02. -/
lemma Pe_eval_zero : rebx_Pe 0 0.02 = 1 := by
  unfold rebx_Pe rebx_Pe_den
  norm_num [Real.zero_rpow]

/-- The planet-trap factor at the disc edge itself with half-width 1/2. -/
lemma trap_eval_edge : rebx_calculate_planet_trap 1 (1 / 2) 1 = -4.5 := by
  unfold rebx_calculate_planet_trap
  rw [if_neg (by norm_num), if_pos (by norm_num)]
  have harg : ((1 : ℝ) * (1 + 1 / 2) - 1) * (2 * Real.pi) / (4 * (1 / 2) * 1) =
      Real.pi / 2 := by ring
  rw [harg, Real.cos_pi_div_two]
  norm_num

/-- The semimajor-axis damping timescale at the concrete disc state used by the
override counterexamples. -/
lemma sma_damping_timescale_eval_one :
    reb_calculating_semi_major_axis_damping_timescale 1 1 1 1 1 1 0 0.02 0 =
      1 / 21093750000 := by
  unfold reb_calculating_semi_major_axis_damping_timescale
  rw [damping_timescale_eval_one, Pe_eval_zero]
  norm_num

/-- The eccentricity damping timescale at the concrete disc state used by the
override counterexamples. -/
lemma ecc_damping_timescale_eval_one :
    rebx_calculating_eccentricity_damping_timescale 1 1 1 1 1 1 0 0.02 0 =
      1 / 4875000 := by
  unfold rebx_calculating_eccentricity_damping_timescale
  rw [damping_timescale_eval_one]
  norm_num

/-! ### Claim theorems -/

/-- C8: for every `r > 0`, the aspect-ratio power law at `beta = 0` reduces to
exactly `0.02`, independently of `r`. -/
theorem aspect_ratio_beta_zero_eq (r : ℝ) (hr : 0 < r) :
    rebx_calculating_the_aspect_ratio r 0 = 0.02 := by
  unfold rebx_calculating_the_aspect_ratio
  rw [neg_zero, Real.rpow_zero, Real.rpow_zero]
  norm_num

/-- C8 witness: the theorem applied at `r = 1`. -/
theorem aspect_ratio_beta_zero_eq_witness :
    rebx_calculating_the_aspect_ratio 1 0 = 0.02 :=
  aspect_ratio_beta_zero_eq 1 (by norm_num)

/-- C10: for every radius and every positive half-width and edge position, the
planet-trap factor lies in the closed interval `[-10, 1]`; in the transition
branch this rests on `cos` being bounded by `±1`. -/
theorem trap_factor_bounded (r h dedge : ℝ) (hh : 0 < h) (hd : 0 < dedge) :
    -10 ≤ rebx_calculate_planet_trap r h dedge ∧
      rebx_calculate_planet_trap r h dedge ≤ 1 := by
  unfold rebx_calculate_planet_trap
  split_ifs with h1 h2
  · norm_num
  · constructor
    · nlinarith [Real.neg_one_le_cos
        ((dedge * (1 + h) - r) * (2 * Real.pi) / (4 * h * dedge))]
    · nlinarith [Real.cos_le_one
        ((dedge * (1 + h) - r) * (2 * Real.pi) / (4 * h * dedge))]
  · norm_num

/-- C10 witness: the theorem applied at `r = 1`, `h = 1/2`, `r_edge = 1`. -/
theorem trap_factor_bounded_witness :
    -10 ≤ rebx_calculate_planet_trap 1 (1 / 2) 1 ∧
      rebx_calculate_planet_trap 1 (1 / 2) 1 ≤ 1 :=
  trap_factor_bounded 1 (1 / 2) 1 (by norm_num) (by norm_num)

/-- C4: for `h > 0` and `r_edge > 0` the trap factor is the three-piece function
of the claim: `1` on `r ≥ r_edge*(1+h)` (at the boundary itself the transition
branch is taken and evaluates to exactly `1`), the cosine transition
`5.5*cos(pi*(r_edge*(1+h) - r)/(2*h*r_edge)) - 4.5` strictly inside the zone,
`-10` on `r ≤ r_edge*(1-h)` (the transition formula evaluates to exactly `-10`
at that boundary), and `-4.5` at `r = r_edge`. -/
theorem trap_factor_piecewise (h dedge : ℝ) (hh : 0 < h) (hd : 0 < dedge) :
    (∀ r, dedge * (1 + h) ≤ r → rebx_calculate_planet_trap r h dedge = 1) ∧
    (∀ r, dedge * (1 - h) < r → r < dedge * (1 + h) →
      rebx_calculate_planet_trap r h dedge =
        5.5 * Real.cos (Real.pi * (dedge * (1 + h) - r) / (2 * h * dedge)) - 4.5) ∧
    (∀ r, r ≤ dedge * (1 - h) → rebx_calculate_planet_trap r h dedge = -10) ∧
    rebx_calculate_planet_trap (dedge * (1 + h)) h dedge = 1 ∧
    rebx_calculate_planet_trap (dedge * (1 - h)) h dedge = -10 ∧
    rebx_calculate_planet_trap dedge h dedge = -4.5 := by
  have hh0 : h ≠ 0 := ne_of_gt hh
  have hd0 : dedge ≠ 0 := ne_of_gt hd
  have hlo : dedge * (1 - h) < dedge * (1 + h) := by nlinarith
  have houter : rebx_calculate_planet_trap (dedge * (1 + h)) h dedge = 1 := by
    unfold rebx_calculate_planet_trap
    rw [if_neg (lt_irrefl _), if_pos hlo, sub_self, zero_mul, zero_div,
      Real.cos_zero]
    norm_num
  have htrans : ∀ r, dedge * (1 - h) < r → r < dedge * (1 + h) →
      rebx_calculate_planet_trap r h dedge =
        5.5 * Real.cos (Real.pi * (dedge * (1 + h) - r) / (2 * h * dedge)) - 4.5 := by
    intro r ha hb
    unfold rebx_calculate_planet_trap
    rw [if_neg (not_lt.mpr hb.le), if_pos ha]
    have harg : (dedge * (1 + h) - r) * (2 * Real.pi) / (4 * h * dedge) =
        Real.pi * (dedge * (1 + h) - r) / (2 * h * dedge) := by
      field_simp
      ring
    rw [harg]
  have hinner : ∀ r, r ≤ dedge * (1 - h) → rebx_calculate_planet_trap r h dedge = -10 := by
    intro r hr
    unfold rebx_calculate_planet_trap
    rw [if_neg (not_lt.mpr (hr.trans hlo.le)), if_neg (not_lt.mpr hr)]
  have hedge : rebx_calculate_planet_trap dedge h dedge = -4.5 := by
    have ha : dedge * (1 - h) < dedge := by nlinarith
    have hb : dedge < dedge * (1 + h) := by nlinarith
    rw [htrans dedge ha hb]
    have harg : Real.pi * (dedge * (1 + h) - dedge) / (2 * h * dedge) = Real.pi / 2 := by
      field_simp
      ring
    rw [harg, Real.cos_pi_div_two]
    norm_num
  refine ⟨fun r hr => ?_, htrans, hinner, houter, hinner _ le_rfl, hedge⟩
  rcases eq_or_lt_of_le hr with heq | hlt
  · rw [← heq]; exact houter
  · unfold rebx_calculate_planet_trap
    rw [if_pos hlt]

/-- C4 witness: the theorem applied at `h = 1/2`, `r_edge = 1`, projected to the
mid-zone value. -/
theorem trap_factor_piecewise_witness :
    rebx_calculate_planet_trap 1 (1 / 2) 1 = -4.5 :=
  (trap_factor_piecewise (1 / 2) 1 (by norm_num) (by norm_num)).2.2.2.2.2

/-- C5 counterexample: at `Hr = 1`, `e = 2.02 * Hr`, the claim says evaluating the
torque-reversal factor fails with a DomainError rather than returning a value.
The source computes `Pe` by one unconditional straight-line expression with no
error path: its denominator is exactly `0` there, the division is performed
anyway, and a value is returned (in this real-valued embedding the division by
the zero denominator yields `0`; in C it yields a non-trapping infinity —
 either way the function returns instead of failing). -/
theorem Pe_returns_value_at_singularity :
    rebx_Pe_den 2.02 1 = 0 ∧ rebx_Pe 2.02 1 = 0 := by
  have hden : rebx_Pe_den 2.02 1 = 0 := by
    unfold rebx_Pe_den
    norm_num
  exact ⟨hden, by unfold rebx_Pe; rw [hden, div_zero]⟩

/-- C5 amended: for every `Hr > 0` the denominator of the torque-reversal factor
vanishes exactly at `e = 2.02 * Hr` and is strictly negative for every `e`
beyond it, but the source performs no domain check: the division is carried out
unconditionally and the evaluation returns instead of failing (no DomainError
exists anywhere in the code). -/
theorem Pe_singularity_unchecked (ar : ℝ) (har : 0 < ar) :
    rebx_Pe_den (2.02 * ar) ar = 0 ∧ rebx_Pe (2.02 * ar) ar = 0 ∧
      ∀ e, 2.02 * ar < e → rebx_Pe_den e ar < 0 := by
  have hne : (2.02 : ℝ) * ar ≠ 0 := by positivity
  have hden : rebx_Pe_den (2.02 * ar) ar = 0 := by
    unfold rebx_Pe_den
    rw [div_self hne]
    norm_num
  refine ⟨hden, by unfold rebx_Pe; rw [hden, div_zero], fun e he => ?_⟩
  unfold rebx_Pe_den
  have h1 : 1 < e / (2.02 * ar) := (one_lt_div (by positivity)).mpr he
  have h4 : 1 < (e / (2.02 * ar)) ^ 4 := one_lt_pow₀ h1 (by norm_num)
  linarith

/-- C5 witness: the amended theorem applied at `Hr = 1`. -/
theorem Pe_singularity_unchecked_witness :
    rebx_Pe_den (2.02 * 1) 1 = 0 :=
  (Pe_singularity_unchecked 1 (by norm_num)).1

/-- C2: the source's wave timescale uses the angular factor
`1/sqrt(G*ms/a) = sqrt(a/(G*ms))` where the claim requires `sqrt(a^3/(G*ms))`
(the inverse orbital angular frequency).  At `G = mp = ms = sigma0 = Hr = 1`,
`alpha = 0`, `r = 1`, `a = 4`, the source value is `1/8` while the claimed
formula gives `1/2`. -/
theorem wave_timescale_angular_factor_bug :
    rebx_calculating_damping_timescale 1 1 1 4 1 1 0 1 = 1 / 8 ∧
    waveTimescale_spec 1 1 1 4 1 1 0 1 = 1 / 2 ∧
    (1 / 8 : ℝ) ≠ 1 / 2 := by
  have hs1 : Real.sqrt ((1 * 1 : ℝ) / 4) = 1 / 2 := by
    rw [show ((1 * 1 : ℝ) / 4) = (1 / 2) ^ 2 by norm_num,
      Real.sqrt_sq (by norm_num : (0 : ℝ) ≤ 1 / 2)]
  have hs2 : Real.sqrt ((4 : ℝ) ^ 3 / (1 * 1)) = 8 := by
    rw [show ((4 : ℝ) ^ 3 / (1 * 1)) = 8 ^ 2 by norm_num,
      Real.sqrt_sq (by norm_num : (0 : ℝ) ≤ 8)]
  refine ⟨?_, ?_, by norm_num⟩
  · unfold rebx_calculating_damping_timescale
    rw [neg_zero, Real.rpow_zero, hs1]
    norm_num
  · unfold waveTimescale_spec
    rw [neg_zero, Real.rpow_zero, hs2]
    norm_num

/-- C1: with the `tau_a` override present (value `2`) and a complete disc
configuration (`dedge = 1`, `h = 1/2`, `beta = alpha = 0`, `sd0 = 1`,
`G = mp = ms = 1`, orbit `a = 1, e = 0`, relative distance `1`), the source sets
the inverse semimajor-axis rate to the disc-derived
`trapFactor(a0,h,dedge)/t_a = -94921875000`; the override value `2` is never
read, so the rate is not `1/tau_a = 1/2` as the claim requires. -/
theorem invtau_a_override_ignored :
    resolve_invtau_a 1 ⟨some 2, none, none⟩ ⟨some 1, some (1 / 2), some 0, some 0, some 1⟩
        1 1 1 0 1 = Except.ok (-94921875000) ∧
      ((-94921875000 : ℝ) ≠ 1 / 2) := by
  constructor
  · have hred : resolve_invtau_a 1 ⟨some 2, none, none⟩
        ⟨some 1, some (1 / 2), some 0, some 0, some 1⟩ 1 1 1 0 1 =
        Except.ok (rebx_calculate_planet_trap 1 (1 / 2) 1 /
          reb_calculating_semi_major_axis_damping_timescale 1 1 1 1 (Real.sqrt 1) 1 0
            ( rebx_calculating_the_aspect_ratio (Real.sqrt 1) 0) 0) := rfl
    rw [hred, Real.sqrt_one, aspect_ratio_eval_one, trap_eval_edge,
      sma_damping_timescale_eval_one]
    norm_num
  · norm_num

/-- C3: with the `tau_e` override present (value `5`) and the same complete disc
configuration as for C1, the source sets the eccentricity-damping timescale to
the disc-derived `t_e = 1/4875000`; the override value `5` is never read, so the
override does not take precedence as the claim requires. -/
theorem tau_e_override_ignored :
    resolve_tau_e 1 ⟨none, some 5, none⟩ ⟨some 1, some (1 / 2), some 0, some 0, some 1⟩
        1 1 1 0 1 = Except.ok (some (1 / 4875000)) ∧
      ((1 / 4875000 : ℝ) ≠ 5) := by
  constructor
  · have hred : resolve_tau_e 1 ⟨none, some 5, none⟩
        ⟨some 1, some (1 / 2), some 0, some 0, some 1⟩ 1 1 1 0 1 =
        Except.ok (some (rebx_calculating_eccentricity_damping_timescale 1 1 1 1
          (Real.sqrt 1) 1 0 ( rebx_calculating_the_aspect_ratio (Real.sqrt 1) 0) 0)) := rfl
    rw [hred, Real.sqrt_one, aspect_ratio_eval_one, ecc_damping_timescale_eval_one]
  · norm_num

/-- C6 amended: whenever the code's disc-derived path is taken (in this source
that path is keyed by the presence of the corresponding override parameter) and
a required disc parameter is absent, the evaluator dereferences the absent
parameter's null pointer (undefined behaviour, modelled as a `nullDeref` fault)
rather than failing with a ConfigurationError; no default value is substituted. -/
theorem missing_disc_params_fault
    (G : ℝ) (pp : ParticleParams) (fc : ForceConfig) (p source : Particle) (o : Orbit) :
    ((∃ t, pp.tau_a = some t) →
      (fc.disc_edge_width = none ∨ fc.inner_disc_edge = none ∨
        fc.initial_disc_surface_density = none ∨ fc.alpha = none ∨ fc.beta = none) →
      rebx_calculate_modify_orbits_with_type_I_migration G pp fc p source o =
        Except.error EvalError.nullDeref) ∧
    (pp.tau_a = none → (∃ t, pp.tau_e = some t) →
      (fc.initial_disc_surface_density = none ∨ fc.alpha = none ∨ fc.beta = none) →
      rebx_calculate_modify_orbits_with_type_I_migration G pp fc p source o =
        Except.error EvalError.nullDeref) := by
  obtain ⟨ta, te, ti⟩ := pp
  obtain ⟨f1, f2, f3, f4, f5⟩ := fc
  constructor
  · rintro ⟨t, hta⟩ habs
    dsimp only at hta
    subst hta
    rcases habs with h | h | h | h | h <;>
      cases te <;> cases f1 <;> cases f2 <;> cases f3 <;> cases f4 <;> cases f5 <;>
        first | rfl | simp_all
  · rintro hta ⟨t, hte⟩ habs
    dsimp only at hta hte
    subst hta
    subst hte
    rcases habs with h | h | h <;>
      cases f3 <;> cases f4 <;> cases f5 <;>
        first | rfl | simp_all

/-- C6 witness: the amended theorem applied to a concrete state in which `tau_a`
is present and `disc_edge_width` is absent. -/
theorem missing_disc_params_fault_witness :
    rebx_calculate_modify_orbits_with_type_I_migration 1 ⟨some 2, none, none⟩
        ⟨some 1, none, some 0, some 0, some 1⟩ ⟨1, 1, 0, 0, 0, 0, 0⟩
        ⟨1, 0, 0, 0, 0, 0, 0⟩ ⟨1, 0, 0⟩ = Except.error EvalError.nullDeref :=
  (missing_disc_params_fault 1 ⟨some 2, none, none⟩ ⟨some 1, none, some 0, some 0, some 1⟩
      ⟨1, 1, 0, 0, 0, 0, 0⟩ ⟨1, 0, 0, 0, 0, 0, 0⟩ ⟨1, 0, 0⟩).1 ⟨2, rfl⟩ (Or.inl rfl)

/-- C6 counterexample: with `tau_a` present and every disc parameter absent, the
claim says the evaluator fails with a ConfigurationError; the source instead
dereferences a null pointer, and the resulting fault is not a
ConfigurationError. -/
theorem missing_disc_params_not_configerror :
    rebx_calculate_modify_orbits_with_type_I_migration 1 ⟨some 2, none, none⟩
        ⟨none, none, none, none, none⟩ ⟨1, 1, 0, 0, 0, 0, 0⟩ ⟨1, 0, 0, 0, 0, 0, 0⟩
        ⟨1, 0, 0⟩ = Except.error EvalError.nullDeref ∧
    (Except.error EvalError.nullDeref : Except EvalError Vec3) ≠
      Except.error EvalError.configurationError := by
  refine ⟨rfl, fun h => ?_⟩
  exact EvalError.noConfusion (Except.error.inj h)

/-- C7: when the `tau_e` and `tau_inc` overrides are both absent, both local
timescales stay `INFINITY`, the guarded eccentricity/inclination block is
skipped (its contribution is the zero vector), and the returned acceleration is
exactly the semimajor-axis drag term. -/
theorem eccinc_term_zero_when_overrides_absent
    (G : ℝ) (pp : ParticleParams) (fc : ForceConfig) (p source : Particle) (o : Orbit)
    (hte : pp.tau_e = none) (hti : pp.tau_inc = none) :
    rebx_calculate_modify_orbits_with_type_I_migration G pp fc p source o =
      Except.map (fun invtau_a => Vec3.mk (-(p.vx - source.vx) * invtau_a)
          (-(p.vy - source.vy) * invtau_a) (-(p.vz - source.vz) * invtau_a))
        (resolve_invtau_a G pp fc p.m source.m o.a o.e
          ((p.x - source.x) * (p.x - source.x) + (p.y - source.y) * (p.y - source.y) +
            (p.z - source.z) * (p.z - source.z))) := by
  have hres : resolve_tau_e G pp fc p.m source.m o.a o.e
      ((p.x - source.x) * (p.x - source.x) + (p.y - source.y) * (p.y - source.y) +
        (p.z - source.z) * (p.z - source.z)) = Except.ok none := by
    unfold resolve_tau_e
    rw [hte]
  cases hinv : resolve_invtau_a G pp fc p.m source.m o.a o.e
      ((p.x - source.x) * (p.x - source.x) + (p.y - source.y) * (p.y - source.y) +
        (p.z - source.z) * (p.z - source.z)) with
  | ok v =>
    simp [rebx_calculate_modify_orbits_with_type_I_migration, hinv, hres, hti,
      eccIncTerm, Except.map]
  | error e =>
    simp [rebx_calculate_modify_orbits_with_type_I_migration, hinv, hres, Except.map]

/-- C7 second part: the eccentricity/inclination term itself is the zero vector
exactly when both timescales are infinite; it contributes only when at least one
of them is finite. -/
theorem eccinc_term_applied_iff_finite (tau_e tau_inc : Option ℝ)
    (dx dy dz dvx dvy dvz r2 : ℝ) (hte : tau_e = none) (hti : tau_inc = none) :
    eccIncTerm tau_e tau_inc dx dy dz dvx dvy dvz r2 = ⟨0, 0, 0⟩ := by
  rw [hte, hti]
  rfl

/-- C7 witness: the main theorem applied to a concrete state with both overrides
absent (and no disc parameters), where the whole acceleration reduces to the
drag term with `invtau_a = 0`. -/
theorem eccinc_term_zero_when_overrides_absent_witness :
    rebx_calculate_modify_orbits_with_type_I_migration 1 ⟨none, none, none⟩
        ⟨none, none, none, none, none⟩ ⟨1, 1, 0, 0, 0, 0, 0⟩ ⟨1, 0, 0, 0, 0, 0, 0⟩
        ⟨1, 0, 0⟩ =
      Except.map (fun invtau_a => Vec3.mk (-(0 - 0) * invtau_a) (-(0 - 0) * invtau_a)
          (-(0 - 0) * invtau_a))
        (resolve_invtau_a 1 ⟨none, none, none⟩ ⟨none, none, none, none, none⟩ 1 1 1 0
          ((1 - 0) * (1 - 0) + (0 - 0) * (0 - 0) + (0 - 0) * (0 - 0))) :=
  eccinc_term_zero_when_overrides_absent 1 ⟨none, none, none⟩
    ⟨none, none, none, none, none⟩ ⟨1, 1, 0, 0, 0, 0, 0⟩ ⟨1, 0, 0, 0, 0, 0, 0⟩
    ⟨1, 0, 0⟩ rfl rfl

/-- C9: the per-particle force evaluator is pure: run against the shared state it
returns only an acceleration value computed from its inputs, and the state after
the call equals the state before it (no particle, reference-body or simulation
field is written). -/
theorem evaluator_is_pure (w : World) :
    (evalInWorld w).2 = w ∧
    (evalInWorld w).1 =
      rebx_calculate_modify_orbits_with_type_I_migration w.G w.pp w.fc w.p w.source w.o :=
  ⟨rfl, rfl⟩

end TypeIMigration
